import Mathlib

/-!
Verification development for the registration handlers of a Matrix-style
homeserver (file `src/server/handlers/registration.rs`).

The handlers `get_available` and `post_register` are embedded shallowly.
The persistence collaborator (the `Store` trait), the username validator
(`models::registration::is_username_valid`), the error helpers
(`MatrixError`, `ErrorCode`, `ResultExt::unknown`) and the request models
live outside the available source; those are modelled from the spec, as
marked in their doc comments.  Handlers are embedded as pure functions that
also return the list of storage operations the run performed, so that
side-effect and call-ordering properties can be stated.
-/

namespace Registration

/-- Error codes used by the handlers (`ErrorCode` in `server::error`).
Modelled from the spec: the error taxonomy of section 7 (InvalidUsername,
UserInUse, StorageFailure surfaced as an opaque unknown error, and the
NotSupported code the spec demands instead of aborting). -/
inductive ErrorCode where
  | INVALID_USERNAME
  | USER_IN_USE
  | UNKNOWN
  | NOT_SUPPORTED
deriving DecidableEq, Repr

/-- Modelled from the spec: `MatrixError` in `server::error` is not under the
available source; per section 6 it carries an HTTP-equivalent status, an
error kind and a message. -/
structure MatrixError where
  status : Nat
  errcode : ErrorCode
  error : String
deriving DecidableEq, Repr

/-- Mirrors the `MatrixError::new(status, errcode, message)` constructor used
by the handler. -/
def MatrixError.new (status : Nat) (errcode : ErrorCode) (error : String) :
    MatrixError :=
  ⟨status, errcode, error⟩

/-- `http::StatusCode::BAD_REQUEST` as used in the handler. -/
def BAD_REQUEST : Nat := 400

/-- Modelled from the spec: `ResultExt::unknown` in `server::error` is not
under the available source; section 6 requires storage failures to map to a
server-error status, surfaced as an opaque server error (section 7). -/
def MatrixError.unknown : MatrixError :=
  MatrixError.new 500 ErrorCode.UNKNOWN "An unknown error occurred."

/-- An HTTP response: status plus a JSON object body rendered as an
association list of key/Bool pairs (the only JSON the handler emits is an
object with one boolean field). -/
structure HttpResponse where
  status : Nat
  body : List (String × Bool)
deriving DecidableEq, Repr

/-- Mirrors `HttpResponse::Ok().json(body)`: status 200 with a JSON body. -/
def HttpResponse.ok_json (body : List (String × Bool)) : HttpResponse :=
  ⟨200, body⟩

namespace model

/-- Modelled from the spec: the maximum username length.  Section 4.1 only
requires a bounded length without fixing the bound; 255 is used as the
concrete bound.  No claim depends on its exact value. -/
def username_max_length : Nat := 255

/-- Modelled from the spec: the allowed grammar set of section 4.1 —
lowercase ASCII letters, digits, and the characters `.` `_` `=` `-` `/`. -/
def is_allowed_char (c : Char) : Bool :=
  (decide ('a' ≤ c) && decide (c ≤ 'z')) ||
  (decide ('0' ≤ c) && decide (c ≤ '9')) ||
  c == '.' || c == '_' || c == '=' || c == '-' || c == '/'

/-- Modelled from the spec: `models::registration::is_username_valid` is not
under the available source.  Section 4.1: accepts only non-empty strings
within a bounded length, composed solely of characters from the allowed
grammar set. -/
def is_username_valid (u : String) : Bool :=
  !u.isEmpty && decide (u.length ≤ username_max_length) &&
    u.data.all is_allowed_char

end model

/-- The answer of the persistence collaborator to an existence lookup:
mirrors the Rust `Result<bool, _>` returned by `check_username_exists`. -/
inductive StoreResult where
  | ok (b : Bool)
  | err
deriving DecidableEq, Repr

/-- Modelled from the spec: the persisted state behind the `db::Store`
trait, which is not under the available source.  `accounts` is the set of
usernames that own an account; `failLookup` says on which usernames the
existence lookup fails (collaborator unavailable or timing out, treated as
a storage failure per section 5). -/
structure Store where
  accounts : List String
  failLookup : String → Bool

/-- Modelled from the spec: `checkUsernameExists(username) -> bool | Failure`
(section 6). -/
def Store.check_username_exists (st : Store) (u : String) : StoreResult :=
  if st.failLookup u then StoreResult.err
  else StoreResult.ok (st.accounts.contains u)

/-- One call to the persistence collaborator, with its answer — the
interface of section 6 (the device-token operation is not reachable from
these handlers and is omitted). -/
inductive StorageOp where
  | check_username_exists (username : String) (result : StoreResult)
  | insertAccount (id : String)
deriving DecidableEq, Repr

/-- Whether a storage operation is a pure query (no mutation). -/
def StorageOp.isQuery : StorageOp → Bool
  | StorageOp.check_username_exists _ _ => true
  | StorageOp.insertAccount _ => false

/-- The effect of one storage operation on the persisted state: queries
leave it unchanged, `insertAccount` records the new account. -/
def applyOp (st : Store) : StorageOp → Store
  | StorageOp.check_username_exists _ _ => st
  | StorageOp.insertAccount id => { st with accounts := id :: st.accounts }

/-- Embedding of `get_available` (registration.rs, lines 23-53): validate
the username, then ask the store whether it exists; invalid username and
username-in-use yield 400 errors, a storage failure yields the opaque
server error, otherwise a 200 response with body avaiable=true (the key is
spelled exactly as in the source).  The second component is the list of
storage calls the run performed, in order. -/
def get_available (username : String) (storage : Store) :
    Except MatrixError HttpResponse × List StorageOp :=
  if !model.is_username_valid username then
    (Except.error (MatrixError.new BAD_REQUEST ErrorCode.INVALID_USERNAME
      "The desired username is not a valid user name."), [])
  else
    match storage.check_username_exists username with
    | StoreResult.err =>
        (Except.error MatrixError.unknown,
         [StorageOp.check_username_exists username StoreResult.err])
    | StoreResult.ok b =>
        if b then
          (Except.error (MatrixError.new BAD_REQUEST ErrorCode.USER_IN_USE
            "Desired user ID is already taken."),
           [StorageOp.check_username_exists username (StoreResult.ok b)])
        else
          (Except.ok (HttpResponse.ok_json [("avaiable", true)]),
           [StorageOp.check_username_exists username (StoreResult.ok b)])

/-- The two account kinds (section 3). -/
inductive AccountKind where
  | user
  | guest
deriving DecidableEq, Repr

/-- Modelled from the spec: `models::registration::RequestParams` is not
under the available source; the query string of the register endpoint
carries the account kind. -/
structure RequestParams where
  kind : AccountKind
deriving DecidableEq, Repr

/-- Modelled from the spec: `models::registration::Request` is not under the
available source; section 3 RegistrationRequest: desired username
(optional), credential material, initial device display name (optional),
device id (optional), kind. -/
structure Request where
  username : Option String
  password : Option String
  device_id : Option String
  initial_device_display_name : Option String
  kind : AccountKind
deriving DecidableEq, Repr

/-- The outcome of running a handler that may abort the process: either it
returns a value, or it panics (as Rust `unimplemented!()` does, with the
message "not implemented"). -/
inductive HandlerOutcome (α : Type) where
  | returns (v : α)
  | panicked (msg : String)
deriving DecidableEq, Repr

/-- Embedding of `post_register` (registration.rs, lines 90-99): the body
first overwrites `req.kind` with the query-string kind, then the handler
aborts via `unimplemented!()`.  The second component is the request value
after the handler's mutation of it. -/
def post_register (params : RequestParams) (req : Request) (_storage : Store) :
    HandlerOutcome (Except MatrixError HttpResponse) × Request :=
  let req2 := { req with kind := params.kind }
  (HandlerOutcome.panicked "not implemented", req2)

/-- Helper: the allowed-character test, stated declaratively. -/
theorem is_allowed_char_iff (c : Char) :
    model.is_allowed_char c = true ↔
      ('a' ≤ c ∧ c ≤ 'z') ∨ ('0' ≤ c ∧ c ≤ '9') ∨
        c = '.' ∨ c = '_' ∨ c = '=' ∨ c = '-' ∨ c = '/' := by
  simp [model.is_allowed_char, Bool.or_eq_true, Bool.and_eq_true,
    decide_eq_true_iff, beq_iff_eq, or_assoc]

/-- Claim C5: the username validator accepts a candidate if and only if it
is non-empty, within the bounded length, and composed solely of lowercase
ASCII letters, digits, and the characters period, underscore, equals,
hyphen, slash; anything else is rejected. -/
theorem is_username_valid_iff (u : String) :
    model.is_username_valid u = true ↔
      (u ≠ "" ∧ u.length ≤ model.username_max_length ∧
        ∀ c ∈ u.data, ('a' ≤ c ∧ c ≤ 'z') ∨ ('0' ≤ c ∧ c ≤ '9') ∨
          c = '.' ∨ c = '_' ∨ c = '=' ∨ c = '-' ∨ c = '/') := by
  simp [model.is_username_valid, Bool.and_eq_true, List.all_eq_true,
    Bool.eq_false_iff, ne_eq, String.isEmpty_iff, decide_eq_true_iff,
    is_allowed_char_iff, and_assoc]

/-- Claim C2: for every username that fails validation, `get_available`
returns the InvalidUsername error with a 400 status and performs no storage
call at all: the returned operation trace is empty. -/
theorem get_available_invalid_username (u : String) (st : Store)
    (h : model.is_username_valid u = false) :
    get_available u st =
      (Except.error (MatrixError.new BAD_REQUEST ErrorCode.INVALID_USERNAME
        "The desired username is not a valid user name."), []) := by
  simp [get_available, h]

/-- Witness for C2: the username with an at-sign from the scenario is
rejected before any storage call, even on a store where it exists. -/
theorem get_available_invalid_username_witness :
    get_available "t@ken" { accounts := ["t@ken"], failLookup := fun _ => false } =
      (Except.error (MatrixError.new BAD_REQUEST ErrorCode.INVALID_USERNAME
        "The desired username is not a valid user name."), []) :=
  get_available_invalid_username "t@ken" _ (by decide)

/-- Claim C1: whenever the run of `get_available` contains an existence
lookup answered true (the persistence collaborator reported the username as
taken), the result is a UserInUse error with a client-error (4xx) status;
its status is 400. -/
theorem get_available_user_in_use (u : String) (st : Store)
    (h : StorageOp.check_username_exists u (StoreResult.ok true) ∈
      (get_available u st).2) :
    ∃ e, (get_available u st).1 = Except.error e ∧
      e.errcode = ErrorCode.USER_IN_USE ∧ e.status = 400 ∧
      400 ≤ e.status ∧ e.status < 500 := by
  by_cases hv : model.is_username_valid u
  · cases hr : st.check_username_exists u with
    | err => simp [get_available, hv, hr] at h
    | ok b =>
      cases b with
      | false => simp [get_available, hv, hr] at h
      | true =>
        refine ⟨MatrixError.new BAD_REQUEST ErrorCode.USER_IN_USE
          "Desired user ID is already taken.", ?_, rfl, rfl, by decide, by decide⟩
        simp [get_available, hv, hr]
  · have hv' : model.is_username_valid u = false := by simpa using hv
    simp [get_available, hv'] at h

/-- Witness for C1: on a store where the username of the scenario exists,
checking it yields the UserInUse client error. -/
theorem get_available_user_in_use_witness :
    ∃ e, (get_available "taken"
        { accounts := ["taken"], failLookup := fun _ => false }).1 =
        Except.error e ∧
      e.errcode = ErrorCode.USER_IN_USE ∧ e.status = 400 ∧
      400 ≤ e.status ∧ e.status < 500 :=
  get_available_user_in_use "taken" _ (by decide)

/-- Claim C4: for every valid username whose existence lookup succeeds and
answers false, `get_available` returns the success (200) response. -/
theorem get_available_available (u : String) (st : Store)
    (hv : model.is_username_valid u = true) (hf : st.failLookup u = false)
    (ht : st.accounts.contains u = false) :
    (get_available u st).1 =
      Except.ok (HttpResponse.ok_json [("avaiable", true)]) ∧
    (HttpResponse.ok_json [("avaiable", true)]).status = 200 := by
  have ht' : u ∉ st.accounts := by simpa using ht
  constructor
  · simp [get_available, hv, Store.check_username_exists, hf, ht']
  · rfl

/-- Witness for C4: the not-taken username of the scenario is reported
available with a success status. -/
theorem get_available_available_witness :
    (get_available "taken_nottaken"
        { accounts := [], failLookup := fun _ => false }).1 =
      Except.ok (HttpResponse.ok_json [("avaiable", true)]) ∧
    (HttpResponse.ok_json [("avaiable", true)]).status = 200 :=
  get_available_available "taken_nottaken" _ (by decide) (by decide) (by decide)

/-- Claim C6: for every valid username on which the existence lookup fails,
`get_available` returns the opaque storage error with a server-error (5xx)
status, and in particular does not return any success response. -/
theorem get_available_storage_failure (u : String) (st : Store)
    (hv : model.is_username_valid u = true) (hf : st.failLookup u = true) :
    (get_available u st).1 = Except.error MatrixError.unknown ∧
      500 ≤ MatrixError.unknown.status ∧ MatrixError.unknown.status < 600 ∧
      ∀ r, ¬ (get_available u st).1 = Except.ok r := by
  have he : (get_available u st).1 = Except.error MatrixError.unknown := by
    simp [get_available, hv, Store.check_username_exists, hf]
  refine ⟨he, by decide, by decide, fun r hr => ?_⟩
  rw [he] at hr
  exact Except.noConfusion hr

/-- Witness for C6: a valid username on a store whose lookups always fail
yields the server error, not availability. -/
theorem get_available_storage_failure_witness :
    (get_available "validname"
        { accounts := [], failLookup := fun _ => true }).1 =
        Except.error MatrixError.unknown ∧
      500 ≤ MatrixError.unknown.status ∧ MatrixError.unknown.status < 600 ∧
      ∀ r, ¬ (get_available "validname"
        { accounts := [], failLookup := fun _ => true }).1 = Except.ok r :=
  get_available_storage_failure "validname" _ (by decide) (by decide)

/-- Claim C7: `get_available` is side-effect-free on persisted state: every
storage operation of any run is a pure query, and replaying the run's
operation trace on the store leaves the store unchanged. -/
theorem get_available_side_effect_free (u : String) (st : Store) :
    (get_available u st).2.all StorageOp.isQuery = true ∧
      (get_available u st).2.foldl applyOp st = st := by
  by_cases hv : model.is_username_valid u
  · cases hr : st.check_username_exists u with
    | err => simp [get_available, hv, hr, StorageOp.isQuery, applyOp]
    | ok b =>
      cases b <;>
        simp [get_available, hv, hr, StorageOp.isQuery, applyOp]
  · have hv' : model.is_username_valid u = false := by simpa using hv
    simp [get_available, hv']

/-- Claim C9: for every valid, not-taken username, the success body of
`get_available` is the one-field JSON object whose key is the misspelling
"avaiable": looking up the correctly spelled key "available" finds nothing,
while "avaiable" maps to true. -/
theorem get_available_body_key_misspelled (u : String) (st : Store)
    (hv : model.is_username_valid u = true) (hf : st.failLookup u = false)
    (ht : st.accounts.contains u = false) :
    ∃ r, (get_available u st).1 = Except.ok r ∧
      r.body = [("avaiable", true)] ∧
      r.body.lookup "available" = none ∧
      r.body.lookup "avaiable" = some true := by
  have ht' : u ∉ st.accounts := by simpa using ht
  refine ⟨HttpResponse.ok_json [("avaiable", true)], ?_, rfl, by decide, by decide⟩
  simp [get_available, hv, Store.check_username_exists, hf, ht']

/-- Witness for C9: a concrete valid, not-taken username whose success body
has only the misspelled key. -/
theorem get_available_body_key_misspelled_witness :
    ∃ r, (get_available "alice"
        { accounts := ["bob"], failLookup := fun _ => false }).1 =
        Except.ok r ∧
      r.body = [("avaiable", true)] ∧
      r.body.lookup "available" = none ∧
      r.body.lookup "avaiable" = some true :=
  get_available_body_key_misspelled "alice" _ (by decide) (by decide) (by decide)

/-- Claim C3: refuted by the code — `post_register` aborts via the
unimplemented placeholder on every input; here it is evaluated at a
concrete request, showing the panic outcome rather than any well-defined
response or NotSupported error. -/
theorem post_register_aborts (params : RequestParams) (req : Request)
    (st : Store) :
    (post_register params req st).1 =
      HandlerOutcome.panicked "not implemented" := rfl

/-- Claim C8: refuted by the code — two guest registration requests that
differ only in the supplied username both abort via the unimplemented
placeholder; neither produces any generated identifier. -/
theorem guest_register_aborts_on_both :
    (post_register { kind := AccountKind.guest }
        { username := some "alice", password := none, device_id := none,
          initial_device_display_name := some "phone",
          kind := AccountKind.guest }
        { accounts := [], failLookup := fun _ => false }).1 =
      HandlerOutcome.panicked "not implemented" ∧
    (post_register { kind := AccountKind.guest }
        { username := some "bob", password := none, device_id := none,
          initial_device_display_name := some "phone",
          kind := AccountKind.guest }
        { accounts := [], failLookup := fun _ => false }).1 =
      HandlerOutcome.panicked "not implemented" :=
  ⟨rfl, rfl⟩

/-- Claim C10: `post_register` always takes the account kind from the
query-string parameter, overwriting the kind supplied in the JSON body and
leaving every other body field unchanged, before anything else happens. -/
theorem post_register_kind_from_query (params : RequestParams)
    (req : Request) (st : Store) :
    (post_register params req st).2.kind = params.kind ∧
      (post_register params req st).2 = { req with kind := params.kind } :=
  ⟨rfl, rfl⟩

end Registration
